import Mathlib

/-!
Verification of the analysis core of the `hvcc_gsph` repository:
the exact Riemann solver and Sedov-Taylor evaluation in
`src/analysis/theoretical.py` / `src/simulations/sedov_taylor_2d/analytical/`
and the conservation analyzer in `src/analysis/conservation.py`.

Machine floats are modelled by real numbers; `scipy.optimize.fsolve` is an
external iterative root finder, so the pressure it returns is modelled as an
explicit parameter `p` of the solve step (the code uses `p` without ever
inspecting a convergence flag).  All definitions transliterate the Python
source; names follow the source names.
-/

namespace HvccGsph

/-! ## Riemann solver (`TheoreticalComparison.riemann_problem`) -/

/-- Sound speed `c = sqrt(gamma * P / rho)` (theoretical.py lines 164-165). -/
noncomputable def soundSpeed (γ P ρ : ℝ) : ℝ := Real.sqrt (γ * P / ρ)

/-- One side of the pressure-function case split inside `equations`
(theoretical.py lines 170-188): shock branch when `p > P_side`,
rarefaction branch otherwise.  The code writes this twice (for the left
and right state); both occurrences are instances of this definition. -/
noncomputable def fSide (γ P ρ p : ℝ) : ℝ :=
  if P < p then
    (p - P) * Real.sqrt (2 / ((γ + 1) * ρ) / (p + (γ - 1) / (γ + 1) * P))
  else
    2 * soundSpeed γ P ρ / (γ - 1) * ((p / P) ^ ((γ - 1) / (2 * γ)) - 1)

/-- The residual handed to `fsolve` (theoretical.py lines 168-191):
`u_L - u_R + f_L + f_R`. -/
noncomputable def equations (γ ρL PL uL ρR PR uR p : ℝ) : ℝ :=
  uL - uR + fSide γ PL ρL p + fSide γ PR ρR p

/-- Initial guess for the star pressure (theoretical.py line 194):
`max(0.5 * (P_L + P_R), 1e-10)`. -/
noncomputable def pGuess (PL PR : ℝ) : ℝ := max (0.5 * (PL + PR)) 1e-10

/-- Post-solve clamp of the star pressure (theoretical.py line 196):
`P_star = max(P_star, 1e-10)`, applied to the value `p` returned by
`fsolve`. -/
noncomputable def pStar (p : ℝ) : ℝ := max p 1e-10

/-- Star-region density on one side (theoretical.py lines 211-225):
shock branch when `P_star > P_side`, rarefaction branch otherwise. -/
noncomputable def rhoStarSide (γ P ρ Ps : ℝ) : ℝ :=
  if P < Ps then
    ρ * ((Ps / P + (γ - 1) / (γ + 1)) / ((γ - 1) / (γ + 1) * Ps / P + 1))
  else
    ρ * (Ps / P) ^ (1 / γ)

/-- The quantities computed once per Riemann solve (theoretical.py lines
160-256) and consumed by the region loop; the spec's `WaveStructure`.
The input data and the time are carried along because the rarefaction-fan
evaluation needs them. -/
structure Wave where
  gamma : ℝ
  rhoL : ℝ
  PL : ℝ
  uL : ℝ
  rhoR : ℝ
  PR : ℝ
  uR : ℝ
  t : ℝ
  cL : ℝ
  cR : ℝ
  Ps : ℝ
  us : ℝ
  rhosL : ℝ
  rhosR : ℝ
  xHeadL : ℝ
  xTailL : ℝ
  xShockR : ℝ
  xHeadR : ℝ
  xTailR : ℝ
  xContact : ℝ

/-- Build the wave structure from the two states and the pressure `p`
returned by `fsolve` (theoretical.py lines 160-256).  In the Python source
`x_shock_R` is assigned only in the right-shock branch and
`x_head_R`/`x_tail_R` only in the right-rarefaction branch; here all are
total, and the region evaluation only ever reads the ones the source
defines in the corresponding branch. -/
noncomputable def solveWave (γ ρL PL uL ρR PR uR t p : ℝ) : Wave :=
  { gamma := γ
    rhoL := ρL
    PL := PL
    uL := uL
    rhoR := ρR
    PR := PR
    uR := uR
    t := t
    cL := soundSpeed γ PL ρL
    cR := soundSpeed γ PR ρR
    Ps := pStar p
    us := uL + fSide γ PL ρL (pStar p)
    rhosL := rhoStarSide γ PL ρL (pStar p)
    rhosR := rhoStarSide γ PR ρR (pStar p)
    xHeadL :=
      (if PL < pStar p then
        uL - soundSpeed γ PL ρL *
          Real.sqrt ((γ + 1) / (2 * γ) * pStar p / PL + (γ - 1) / (2 * γ))
      else uL - soundSpeed γ PL ρL) * t
    xTailL :=
      (if PL < pStar p then
        uL - soundSpeed γ PL ρL *
          Real.sqrt ((γ + 1) / (2 * γ) * pStar p / PL + (γ - 1) / (2 * γ))
      else
        uL + fSide γ PL ρL (pStar p) -
          soundSpeed γ PL ρL * (pStar p / PL) ^ ((γ - 1) / (2 * γ))) * t
    xShockR :=
      (uR + soundSpeed γ PR ρR *
        Real.sqrt ((γ + 1) / (2 * γ) * pStar p / PR + (γ - 1) / (2 * γ))) * t
    xHeadR := (uR + soundSpeed γ PR ρR) * t
    xTailR :=
      (uL + fSide γ PL ρL (pStar p) +
        soundSpeed γ PR ρR * (pStar p / PR) ^ ((γ - 1) / (2 * γ))) * t
    xContact := (uL + fSide γ PL ρL (pStar p)) * t }

/-- Left rarefaction-fan state (theoretical.py lines 286-289). -/
noncomputable def fanL (w : Wave) (xi : ℝ) : ℝ × ℝ × ℝ :=
  ( w.rhoL * ((w.cL - (w.gamma - 1) / 2 *
      (2 / (w.gamma + 1) * (w.cL + xi / w.t + w.uL) - w.uL)) / w.cL) ^
      (2 / (w.gamma - 1))
  , 2 / (w.gamma + 1) * (w.cL + xi / w.t + w.uL)
  , w.PL * ((w.cL - (w.gamma - 1) / 2 *
      (2 / (w.gamma + 1) * (w.cL + xi / w.t + w.uL) - w.uL)) / w.cL) ^
      (2 * w.gamma / (w.gamma - 1)) )

/-- Right rarefaction-fan state (theoretical.py lines 318-321). -/
noncomputable def fanR (w : Wave) (xi : ℝ) : ℝ × ℝ × ℝ :=
  ( w.rhoR * ((w.cR + (w.gamma - 1) / 2 *
      (2 / (w.gamma + 1) * (-w.cR + xi / w.t + w.uR) - w.uR)) / w.cR) ^
      (2 / (w.gamma - 1))
  , 2 / (w.gamma + 1) * (-w.cR + xi / w.t + w.uR)
  , w.PR * ((w.cR + (w.gamma - 1) / 2 *
      (2 / (w.gamma + 1) * (-w.cR + xi / w.t + w.uR)- w.uR)) / w.cR) ^
      (2 * w.gamma / (w.gamma - 1)) )

/-- One iteration of the region-filling loop (theoretical.py lines
264-325) at shifted position `xi`, producing `(rho, vel, pres)`.  The
arrays start zero-filled; the left block writes only when
`xi < x_contact`, and the right block (guarded by
`(P_star <= P_L and xi >= x_contact) or (P_star > P_L and xi >= x_contact)`)
always overwrites when it runs, so the final value is the right block's
value whenever the guard holds and the left chain's value otherwise. -/
noncomputable def evalW (w : Wave) (xi : ℝ) : ℝ × ℝ × ℝ :=
  if (w.Ps ≤ w.PL ∧ w.xContact ≤ xi) ∨ (w.PL < w.Ps ∧ w.xContact ≤ xi) then
    if w.PR < w.Ps then
      if xi < w.xShockR then (w.rhosR, w.us, w.Ps) else (w.rhoR, w.uR, w.PR)
    else
      if xi < w.xTailR then (w.rhosR, w.us, w.Ps)
      else if xi < w.xHeadR then fanR w xi
      else (w.rhoR, w.uR, w.PR)
  else
    if w.PL < w.Ps then
      if xi < w.xHeadL then (w.rhoL, w.uL, w.PL)
      else if xi < w.xContact then (w.rhosL, w.us, w.Ps)
      else (0, 0, 0)
    else
      if xi < w.xHeadL then (w.rhoL, w.uL, w.PL)
      else if xi < w.xTailL then fanL w xi
      else if xi < w.xContact then (w.rhosL, w.us, w.Ps)
      else (0, 0, 0)

/-- Full evaluation of `riemann_problem` at one query position `x`:
coordinates are shifted by `x_interface` (theoretical.py line 161) and the
region loop is run on the wave structure. -/
noncomputable def riemannPoint (γ ρL PL uL ρR PR uR x0 t p x : ℝ) : ℝ × ℝ × ℝ :=
  evalW (solveWave γ ρL PL uL ρR PR uR t p) (x - x0)

/-- The arrays returned by `riemann_problem` (theoretical.py lines 258-330)
over a list of query positions: density, velocity and pressure from the
region loop, and internal energy `ene = pres / ((gamma - 1) * rho)`
computed elementwise from the other two (line 328). -/
noncomputable def riemannProblem (γ ρL PL uL ρR PR uR x0 t p : ℝ)
    (xs : List ℝ) : List ℝ × List ℝ × List ℝ × List ℝ :=
  ( xs.map (fun x => (riemannPoint γ ρL PL uL ρR PR uR x0 t p x).1)
  , xs.map (fun x => (riemannPoint γ ρL PL uL ρR PR uR x0 t p x).2.1)
  , xs.map (fun x => (riemannPoint γ ρL PL uL ρR PR uR x0 t p x).2.2)
  , List.zipWith (fun pr rh => pr / ((γ - 1) * rh))
      (xs.map (fun x => (riemannPoint γ ρL PL uL ρR PR uR x0 t p x).2.2))
      (xs.map (fun x => (riemannPoint γ ρL PL uL ρR PR uR x0 t p x).1)) )

/-- Mirror image of a primitive state `(rho, u, P)`: identical density
and pressure, negated velocity (spec 8, symmetry property). -/
def mirrorState (s : ℝ × ℝ × ℝ) : ℝ × ℝ × ℝ := (s.1, -s.2.1, s.2.2)

/-! ## Sedov-Taylor evaluation (`sedov_taylor_solution.py`) -/

/-- Physical parameters for the Sedov-Taylor blast wave
(sedov_taylor_solution.py lines 24-40). -/
structure SedovParameters where
  E0 : ℝ
  rho0 : ℝ
  gamma : ℝ
  dimension : ℕ

/-- Exponent for the shock radius, `alpha = 2 / (dimension + 2)`
(sedov_taylor_solution.py lines 37-40). -/
noncomputable def SedovParameters.alpha (p : SedovParameters) : ℝ :=
  2 / ((p.dimension : ℝ) + 2)

/-- `SedovTaylorSolution.shock_radius` (sedov_taylor_solution.py lines
130-147): `R = xi0 * (E0/rho0)^(1/(j+2)) * t^alpha` with
`j = dimension - 1`.  The energy constant `xi0` is the value of
`_compute_energy_constant` (a tabulated literature value on the fast
paths, a numerical integral of the tabulated profile otherwise); it is a
parameter here. -/
noncomputable def shockRadius (p : SedovParameters) (xi0 t : ℝ) : ℝ :=
  xi0 * (p.E0 / p.rho0) ^ ((1 : ℝ) / ((p.dimension : ℝ) - 1 + 2)) * t ^ p.alpha

/-- `SedovTaylorSolution.solution_at_time` (sedov_taylor_solution.py lines
185-224), returning `(rho, v, P, e)` at radius `r` and time `t`.  The
cubic interpolants of the numerically integrated profile are the
parameters `Vi`, `Zi`, `Gi`; the masking `np.where(r <= R, ..., ...)`
(lines 210-214) replaces every quantity beyond the shock by the
undisturbed background. -/
noncomputable def solutionAtTime (p : SedovParameters) (xi0 : ℝ)
    (Vi Zi Gi : ℝ → ℝ) (r t : ℝ) : ℝ × ℝ × ℝ × ℝ :=
  ( if r ≤ shockRadius p xi0 t then
      p.rho0 * Zi (r / shockRadius p xi0 t)
    else p.rho0
  , if r ≤ shockRadius p xi0 t then
      Vi (r / shockRadius p xi0 t) * (r / shockRadius p xi0 t) *
        (if 0 < t then p.alpha * shockRadius p xi0 t / t else 0)
    else 0
  , if r ≤ shockRadius p xi0 t then
      p.rho0 * (if 0 < t then p.alpha * shockRadius p xi0 t / t else 0) ^ 2 *
        Gi (r / shockRadius p xi0 t)
    else 1e-6
  , if r ≤ shockRadius p xi0 t then
      p.rho0 * (if 0 < t then p.alpha * shockRadius p xi0 t / t else 0) ^ 2 *
        Gi (r / shockRadius p xi0 t) /
        ((p.gamma - 1) * (p.rho0 * Zi (r / shockRadius p xi0 t)))
    else 1e-6 )

/-! ## Conservation analyzer (`conservation.py`, `readers.py`)

Particle positions and velocities are `(N, dim)` arrays in the source;
they are embedded as triples whose components beyond `dim` are zero, so
that sums over the `dim` actual columns coincide with sums over all three
components. -/

/-- `ParticleSnapshot` (readers.py lines 24-56), restricted to the fields
the conservation analyzer reads.  `dim` is `pos.shape[1]` in the source. -/
structure Snapshot where
  time : ℝ
  dim : ℕ
  mass : List ℝ
  pos : List (ℝ × ℝ × ℝ)
  vel : List (ℝ × ℝ × ℝ)
  ene : List ℝ

/-- `ParticleSnapshot.total_mass` (readers.py lines 58-60). -/
def totalMass (s : Snapshot) : ℝ := s.mass.sum

/-- `ParticleSnapshot.total_momentum` (readers.py lines 62-65). -/
def totalMomentum (s : Snapshot) : ℝ × ℝ × ℝ :=
  ( (List.zipWith (fun m v => m * v.1) s.mass s.vel).sum
  , (List.zipWith (fun m v => m * v.2.1) s.mass s.vel).sum
  , (List.zipWith (fun m v => m * v.2.2) s.mass s.vel).sum )

/-- `ParticleSnapshot.total_kinetic_energy` (readers.py lines 67-69). -/
def totalKineticEnergy (s : Snapshot) : ℝ :=
  0.5 * (List.zipWith (fun m v => m * (v.1 ^ 2 + v.2.1 ^ 2 + v.2.2 ^ 2))
    s.mass s.vel).sum

/-- `ParticleSnapshot.total_thermal_energy` (readers.py lines 71-73). -/
def totalThermalEnergy (s : Snapshot) : ℝ :=
  (List.zipWith (fun m e => m * e) s.mass s.ene).sum

/-- `ParticleSnapshot.center_of_mass` (readers.py lines 75-78). -/
noncomputable def centerOfMass (s : Snapshot) : ℝ × ℝ × ℝ :=
  ( (List.zipWith (fun m r => m * r.1) s.mass s.pos).sum / totalMass s
  , (List.zipWith (fun m r => m * r.2.1) s.mass s.pos).sum / totalMass s
  , (List.zipWith (fun m r => m * r.2.2) s.mass s.pos).sum / totalMass s )

/-- `ParticleSnapshot.center_of_mass_velocity` (readers.py lines 80-82). -/
noncomputable def centerOfMassVelocity (s : Snapshot) : ℝ × ℝ × ℝ :=
  ( (totalMomentum s).1 / totalMass s
  , (totalMomentum s).2.1 / totalMass s
  , (totalMomentum s).2.2 / totalMass s )

/-- Euclidean magnitude of an embedded `dim`-vector (`np.linalg.norm`);
components beyond `dim` are zero by the embedding convention, so the sum
over all three squares equals the sum over the `dim` columns. -/
noncomputable def norm3 (v : ℝ × ℝ × ℝ) : ℝ :=
  Real.sqrt (v.1 ^ 2 + v.2.1 ^ 2 + v.2.2 ^ 2)

/-- `ConservationAnalyzer.compute_angular_momentum_2d`
(conservation.py lines 85-113): `L_z = sum m_i (x_i v_y_i - y_i v_x_i)`
about the center of mass. -/
noncomputable def angularMomentum2d (s : Snapshot) : ℝ :=
  (List.zipWith (fun m pv =>
      m * ((pv.1.1 - (centerOfMass s).1) * (pv.2.2.1 - (centerOfMassVelocity s).2.1)
         - (pv.1.2.1 - (centerOfMass s).2.1) * (pv.2.1 - (centerOfMassVelocity s).1)))
    s.mass (s.pos.zip s.vel)).sum

/-- `ConservationAnalyzer.compute_angular_momentum_3d`
(conservation.py lines 115-144): `L = sum m_i (r_i x v_i)` about the
center of mass. -/
noncomputable def angularMomentum3d (s : Snapshot) : ℝ × ℝ × ℝ :=
  ( (List.zipWith (fun m pv =>
        m * ((pv.1.2.1 - (centerOfMass s).2.1) * (pv.2.2.2 - (centerOfMassVelocity s).2.2)
           - (pv.1.2.2 - (centerOfMass s).2.2) * (pv.2.2.1 - (centerOfMassVelocity s).2.1)))
      s.mass (s.pos.zip s.vel)).sum
  , (List.zipWith (fun m pv =>
        m * ((pv.1.2.2 - (centerOfMass s).2.2) * (pv.2.1 - (centerOfMassVelocity s).1)
           - (pv.1.1 - (centerOfMass s).1) * (pv.2.2.2 - (centerOfMassVelocity s).2.2)))
      s.mass (s.pos.zip s.vel)).sum
  , (List.zipWith (fun m pv =>
        m * ((pv.1.1 - (centerOfMass s).1) * (pv.2.2.1 - (centerOfMassVelocity s).2.1)
           - (pv.1.2.1 - (centerOfMass s).2.1) * (pv.2.1 - (centerOfMassVelocity s).1)))
      s.mass (s.pos.zip s.vel)).sum )

/-- `ConservationReport` (conservation.py lines 22-44), restricted to the
series the verified claims mention; the raw angular-momentum series is
reconstructible from the snapshots and is not repeated here. -/
structure ConservationReport where
  time : List ℝ
  total_mass : List ℝ
  mass_error : List ℝ
  momentum : List (ℝ × ℝ × ℝ)
  momentum_magnitude : List ℝ
  momentum_error : List ℝ
  kinetic_energy : List ℝ
  thermal_energy : List ℝ
  total_energy : List ℝ
  energy_error : List ℝ
  angular_momentum_error : Option (List ℝ)

/-- Body of `ConservationAnalyzer.analyze_snapshots` (conservation.py
lines 146-232) for a nonempty snapshot list `s0 :: rest`:
`dim = snapshots[0].dim`; mass error `(total_mass - total_mass[0]) /
total_mass[0]` (line 191, no floor check); momentum error relative to
`momentum_mag[0]` only when that magnitude exceeds `1e-14`, and the raw
magnitude series otherwise (lines 193-198); angular momentum follows the
same pattern per dimension (lines 200-215), the 2D fallback being the
signed series; energy error `(total_energy - total_energy[0]) /
total_energy[0]` (line 217, no floor check). -/
noncomputable def analyzeSnapshotsAux (s0 : Snapshot) (rest : List Snapshot) :
    ConservationReport :=
  { time := (s0 :: rest).map Snapshot.time
    total_mass := (s0 :: rest).map totalMass
    mass_error := (s0 :: rest).map
      (fun s => (totalMass s - totalMass s0) / totalMass s0)
    momentum := (s0 :: rest).map totalMomentum
    momentum_magnitude := (s0 :: rest).map (fun s => norm3 (totalMomentum s))
    momentum_error :=
      if 1e-14 < norm3 (totalMomentum s0) then
        (s0 :: rest).map (fun s =>
          (norm3 (totalMomentum s) - norm3 (totalMomentum s0)) /
            norm3 (totalMomentum s0))
      else
        (s0 :: rest).map (fun s => norm3 (totalMomentum s))
    kinetic_energy := (s0 :: rest).map totalKineticEnergy
    thermal_energy := (s0 :: rest).map totalThermalEnergy
    total_energy := (s0 :: rest).map
      (fun s => totalKineticEnergy s + totalThermalEnergy s)
    energy_error := (s0 :: rest).map (fun s =>
      (totalKineticEnergy s + totalThermalEnergy s -
        (totalKineticEnergy s0 + totalThermalEnergy s0)) /
      (totalKineticEnergy s0 + totalThermalEnergy s0))
    angular_momentum_error :=
      if s0.dim = 1 then none
      else if s0.dim = 2 then
        some (if 1e-14 < |angularMomentum2d s0| then
            (s0 :: rest).map (fun s =>
              (angularMomentum2d s - angularMomentum2d s0) /
                |angularMomentum2d s0|)
          else (s0 :: rest).map angularMomentum2d)
      else
        some (if 1e-14 < norm3 (angularMomentum3d s0) then
            (s0 :: rest).map (fun s =>
              (norm3 (angularMomentum3d s) - norm3 (angularMomentum3d s0)) /
                norm3 (angularMomentum3d s0))
          else (s0 :: rest).map (fun s => norm3 (angularMomentum3d s))) }

/-- `ConservationAnalyzer.analyze_snapshots` as seen by a caller: on the
empty list the source raises `IndexError` at `snapshots[0].dim`
(conservation.py line 158) before computing anything, modelled by `none`. -/
noncomputable def analyzeSnapshots : List Snapshot → Option ConservationReport
  | [] => none
  | s0 :: rest => some (analyzeSnapshotsAux s0 rest)

/-- The velocity-matching residual exactly as the specification words it
(spec 4.1 `solve`): `u_L - u_R + f_L(P*) + f_R(P*)` with, on each side,
the shock branch `(P* - P_side) * sqrt(A / (P* + B))`,
`A = 2/((gamma+1) rho_side)`, `B = (gamma-1)/(gamma+1) P_side` when
`P* > P_side`, and otherwise the rarefaction branch
`2 c_side/(gamma-1) ((P*/P_side)^((gamma-1)/(2 gamma)) - 1)` with
`c_side = sqrt(gamma P_side/rho_side)`.  Written from the spec text, to be
compared with the source-side `equations`. -/
noncomputable def specVelocityMatchResidual (γ ρL PL uL ρR PR uR Pstar : ℝ) : ℝ :=
  uL - uR +
  (if PL < Pstar then
    (Pstar - PL) * Real.sqrt (2 / ((γ + 1) * ρL) / (Pstar + (γ - 1) / (γ + 1) * PL))
  else
    2 * Real.sqrt (γ * PL / ρL) / (γ - 1) * ((Pstar / PL) ^ ((γ - 1) / (2 * γ)) - 1)) +
  (if PR < Pstar then
    (Pstar - PR) * Real.sqrt (2 / ((γ + 1) * ρR) / (Pstar + (γ - 1) / (γ + 1) * PR))
  else
    2 * Real.sqrt (γ * PR / ρR) / (γ - 1) * ((Pstar / PR) ^ ((γ - 1) / (2 * γ)) - 1))

/-! ## Helper lemmas -/

/-- Evaluate a real power with rational exponent on an exact power:
`(b^n)^(m/n) = b^m`. -/
lemma rpow_natFrac (b : ℝ) (hb : 0 ≤ b) (n m : ℕ) (hn : (n : ℝ) ≠ 0) :
    (b ^ n) ^ ((m : ℝ) / n) = b ^ m := by
  rw [← Real.rpow_natCast b n, ← Real.rpow_mul hb]
  rw [show (n : ℝ) * ((m : ℝ) / n) = (m : ℝ) by field_simp]
  exact Real.rpow_natCast b m

/-- Positivity of the star-region density for positive data. -/
lemma rhoStarSide_pos (γ P ρ Ps : ℝ) (hγ : 1 < γ) (hP : 0 < P) (hρ : 0 < ρ)
    (hPs : 0 < Ps) : 0 < rhoStarSide γ P ρ Ps := by
  have hc : 0 < (γ - 1) / (γ + 1) := div_pos (by linarith) (by linarith)
  unfold rhoStarSide
  split
  · refine mul_pos hρ (div_pos ?_ ?_)
    · exact add_pos (div_pos hPs hP) hc
    · have : 0 < (γ - 1) / (γ + 1) * Ps / P := div_pos (mul_pos hc hPs) hP
      linarith
  · exact mul_pos hρ (Real.rpow_pos_of_pos (div_pos hPs hP) _)

/-- The clamp floor is positive. -/
lemma pStar_pos (p : ℝ) : 0 < pStar p :=
  lt_of_lt_of_le (by norm_num : (0:ℝ) < 1e-10) (le_max_right _ _)

/-! ## C2 -/

/-- C2: for every input pair of states with positive densities and
pressures (and any pressure `p` handed back by the root finder), the solve
step of `riemann_problem` returns a clamped star pressure `P* > 0` and
star densities `rho*_L > 0`, `rho*_R > 0`: vacuum-forming configurations
are handled by the clamp `max(P_star, 1e-10)`, never by returning a
non-positive pressure. -/
theorem riemann_solve_star_positive (γ ρL PL ρR PR p : ℝ) (hγ : 1 < γ)
    (hρL : 0 < ρL) (hPL : 0 < PL) (hρR : 0 < ρR) (hPR : 0 < PR) :
    0 < pStar p ∧ 0 < rhoStarSide γ PL ρL (pStar p) ∧
      0 < rhoStarSide γ PR ρR (pStar p) :=
  ⟨pStar_pos p,
   rhoStarSide_pos γ PL ρL (pStar p) hγ hPL hρL (pStar_pos p),
   rhoStarSide_pos γ PR ρR (pStar p) hγ hPR hρR (pStar_pos p)⟩

/-- Witness for C2 at `gamma = 2`, unit states, solver output `p = 1`. -/
theorem riemann_solve_star_positive_witness :
    (1:ℝ) < 2 ∧ (0:ℝ) < 1 ∧
      (0 < pStar 1 ∧ 0 < rhoStarSide 2 1 1 (pStar 1) ∧
        0 < rhoStarSide 2 1 1 (pStar 1)) :=
  ⟨by norm_num, by norm_num,
   riemann_solve_star_positive 2 1 1 1 1 1 (by norm_num) (by norm_num)
     (by norm_num) (by norm_num) (by norm_num)⟩

/-! ## C3 -/

/-- C3: at `t = 0` the evaluation of `riemann_problem` is the exact step
function of the two input states: every query `x < x0` receives the left
state and every `x > x0` the right state, whatever pressure the root
finder returned (all region boundaries collapse to the interface and the
rarefaction-fan branches are unreachable). -/
theorem riemann_t0_step (γ ρL PL uL ρR PR uR x0 p x : ℝ) (hγ : 1 < γ)
    (hρL : 0 < ρL) (hPL : 0 < PL) (hρR : 0 < ρR) (hPR : 0 < PR) :
    (x < x0 → riemannPoint γ ρL PL uL ρR PR uR x0 0 p x = (ρL, uL, PL)) ∧
    (x0 < x → riemannPoint γ ρL PL uL ρR PR uR x0 0 p x = (ρR, uR, PR)) := by
  constructor
  · intro hx
    have hxi : x - x0 < 0 := by linarith
    simp only [riemannPoint, evalW, solveWave, mul_zero]
    rw [if_neg (by rintro (⟨-, h⟩ | ⟨-, h⟩) <;> linarith)]
    split_ifs <;> first | rfl | linarith
  · intro hx
    have hxi : (0:ℝ) ≤ x - x0 := by linarith
    simp only [riemannPoint, evalW, solveWave, mul_zero]
    rw [if_pos (by
      rcases le_or_lt (pStar p) PL with h | h
      · exact Or.inl ⟨h, hxi⟩
      · exact Or.inr ⟨h, hxi⟩)]
    split_ifs <;> first | rfl | linarith

/-- Witness for C3: Sod-like states, interface at `x0 = 0`, queries
`x = -1` and `x = 1`. -/
theorem riemann_t0_step_witness :
    ((1:ℝ) < 7/5 ∧ (0:ℝ) < 1 ∧ (0:ℝ) < 1 ∧ (0:ℝ) < 1/8 ∧ (0:ℝ) < 1/10) ∧
    riemannPoint (7/5) 1 1 0 (1/8) (1/10) 0 0 0 (1/2) (-1) = (1, 0, 1) ∧
    riemannPoint (7/5) 1 1 0 (1/8) (1/10) 0 0 0 (1/2) 1 = (1/8, 0, 1/10) := by
  have h := riemann_t0_step (7/5) 1 1 0 (1/8) (1/10) 0 0 (1/2) (x := (-1))
    (by norm_num) (by norm_num) (by norm_num) (by norm_num) (by norm_num)
  have h' := riemann_t0_step (7/5) 1 1 0 (1/8) (1/10) 0 0 (1/2) (x := 1)
    (by norm_num) (by norm_num) (by norm_num) (by norm_num) (by norm_num)
  exact ⟨⟨by norm_num, by norm_num, by norm_num, by norm_num, by norm_num⟩,
    h.1 (by norm_num), h'.2 (by norm_num)⟩

/-! ## C8 -/

/-- C8: for `t > 0` and every query radius strictly beyond the shock
radius `R(t)`, `solution_at_time` returns the undisturbed background:
density `rho0`, velocity `0`, and the vacuum-floor pressure `1e-6`
(together with floor internal energy `1e-6`), independently of the
interpolated interior profile `Vi`, `Zi`, `Gi` and of the energy constant
`xi0`. -/
theorem sedov_beyond_shock (p : SedovParameters) (xi0 : ℝ) (Vi Zi Gi : ℝ → ℝ)
    (r t : ℝ) (ht : 0 < t) (hr : shockRadius p xi0 t < r) :
    solutionAtTime p xi0 Vi Zi Gi r t = (p.rho0, 0, 1e-6, 1e-6) := by
  simp only [solutionAtTime]
  rw [if_neg (not_le.mpr hr), if_neg (not_le.mpr hr), if_neg (not_le.mpr hr),
    if_neg (not_le.mpr hr)]

/-- Witness for C8: the 2D `gamma = 1.4` fast-path constant `xi0 = 1.033`
with `E0 = rho0 = 1` gives `R(1) = 1.033 < 2`. -/
theorem sedov_beyond_shock_witness :
    (0:ℝ) < 1 ∧ shockRadius ⟨1, 1, 1.4, 2⟩ 1.033 1 < 2 ∧
    solutionAtTime ⟨1, 1, 1.4, 2⟩ 1.033 (fun _ => 37) (fun _ => 37)
      (fun _ => 37) 2 1 = (1, 0, 1e-6, 1e-6) := by
  have hR : shockRadius ⟨1, 1, 1.4, 2⟩ 1.033 1 < 2 := by
    simp only [shockRadius, SedovParameters.alpha]
    norm_num [Real.one_rpow]
  exact ⟨by norm_num, hR,
    sedov_beyond_shock ⟨1, 1, 1.4, 2⟩ 1.033 (fun _ => 37) (fun _ => 37)
      (fun _ => 37) 2 1 (by norm_num) hR⟩

/-! ## C9 -/

/-- C9: the four arrays returned by `riemann_problem` all have exactly the
length of the query-position list, and the internal-energy array is
derived pointwise from the pressure and density arrays as
`ene[i] = pres[i] / ((gamma - 1) * rho[i])`. -/
theorem riemann_array_invariants (γ ρL PL uL ρR PR uR x0 t p : ℝ)
    (xs : List ℝ) :
    (riemannProblem γ ρL PL uL ρR PR uR x0 t p xs).1.length = xs.length ∧
    (riemannProblem γ ρL PL uL ρR PR uR x0 t p xs).2.1.length = xs.length ∧
    (riemannProblem γ ρL PL uL ρR PR uR x0 t p xs).2.2.1.length = xs.length ∧
    (riemannProblem γ ρL PL uL ρR PR uR x0 t p xs).2.2.2.length = xs.length ∧
    ∀ i pr rh,
      (riemannProblem γ ρL PL uL ρR PR uR x0 t p xs).2.2.1.get? i = some pr →
      (riemannProblem γ ρL PL uL ρR PR uR x0 t p xs).1.get? i = some rh →
      (riemannProblem γ ρL PL uL ρR PR uR x0 t p xs).2.2.2.get? i =
        some (pr / ((γ - 1) * rh)) := by
  refine ⟨by simp [riemannProblem], by simp [riemannProblem],
    by simp [riemannProblem], by simp [riemannProblem], ?_⟩
  intro i pr rh h1 h2
  rcases hx : xs.get? i with _ | x
  · rw [riemannProblem, List.get?_map, hx] at h1
    cases h1
  · simp only [riemannProblem, List.get?_map, hx, Option.map_some'] at h1 h2 ⊢
    rw [List.get?_zipWith', List.get?_map, List.get?_map, hx]
    simp only [Option.map_some', Option.some_bind]
    rw [Option.some_inj] at h1 h2
    rw [h1, h2]

/-- Witness for C9 on the singleton query list `[0]`. -/
theorem riemann_array_invariants_witness :
    (riemannProblem 2 1 1 0 1 1 0 0 1 1 [0]).2.2.2.get? 0 =
      some ((riemannPoint 2 1 1 0 1 1 0 0 1 1 0).2.2 /
        ((2 - 1) * (riemannPoint 2 1 1 0 1 1 0 0 1 1 0).1)) := by
  refine (riemann_array_invariants 2 1 1 0 1 1 0 0 1 1 [0]).2.2.2.2 0 _ _ ?_ ?_ <;>
    simp [riemannProblem]

/-! ## Exact evaluations at the `gamma = 7/5` two-rarefaction data point,
used to discharge hypotheses concretely. -/

/-- `(1/128)^(1/7) = 1/2`. -/
lemma rpow_128_17 : ((1:ℝ)/128) ^ ((1:ℝ)/7) = 1/2 := by
  rw [show ((1:ℝ)/128) = (1/2 : ℝ) ^ (7 : ℕ) by norm_num]
  have h := rpow_natFrac (1/2 : ℝ) (by norm_num) 7 1 (by norm_num)
  simpa using h

/-- `(1/16384)^(1/7) = 1/4`. -/
lemma rpow_16384_17 : ((1:ℝ)/16384) ^ ((1:ℝ)/7) = 1/4 := by
  rw [show ((1:ℝ)/16384) = (1/4 : ℝ) ^ (7 : ℕ) by norm_num]
  have h := rpow_natFrac (1/4 : ℝ) (by norm_num) 7 1 (by norm_num)
  simpa using h

/-- `(1/128)^(5/7) = 1/32`. -/
lemma rpow_128_57 : ((1:ℝ)/128) ^ ((5:ℝ)/7) = 1/32 := by
  have h := rpow_natFrac (1/2 : ℝ) (by norm_num) 7 5 (by norm_num)
  norm_num at h
  simpa using h

/-- The clamp is the identity at `p = 1/128`. -/
lemma pStar_at_128 : pStar (1/128) = 1/128 := max_eq_left (by norm_num)

/-- Left-side sound speed of the two-rarefaction data point. -/
lemma soundSpeed_75_left : soundSpeed (7/5) 1 (7/5) = 1 := by
  unfold soundSpeed
  rw [show ((7:ℝ)/5 * 1 / (7/5)) = 1 by norm_num, Real.sqrt_one]

/-- Right-side sound speed of the two-rarefaction data point. -/
lemma soundSpeed_75_right : soundSpeed (7/5) 128 (896/5) = 1 := by
  unfold soundSpeed
  rw [show ((7:ℝ)/5 * 128 / (896/5)) = 1 by norm_num, Real.sqrt_one]

/-- Left pressure function at the data point: a rarefaction with value
`-5/2`. -/
lemma fSide_75_left : fSide (7/5) 1 (7/5) (pStar (1/128)) = -(5/2) := by
  rw [pStar_at_128]
  unfold fSide
  rw [if_neg (by norm_num)]
  rw [soundSpeed_75_left]
  rw [show ((1:ℝ)/128 / 1) = 1/128 by norm_num]
  rw [show (((7:ℝ)/5 - 1) / (2 * (7/5))) = 1/7 by norm_num]
  rw [rpow_128_17]
  norm_num

/-- Right pressure function at the data point: a rarefaction with value
`-15/4`. -/
lemma fSide_75_right : fSide (7/5) 128 (896/5) (pStar (1/128)) = -(15/4) := by
  rw [pStar_at_128]
  unfold fSide
  rw [if_neg (by norm_num)]
  rw [soundSpeed_75_right]
  rw [show ((1:ℝ)/128 / 128) = 1/16384 by norm_num]
  rw [show (((7:ℝ)/5 - 1) / (2 * (7/5))) = 1/7 by norm_num]
  rw [rpow_16384_17]
  norm_num

/-- The residual vanishes exactly at `p = 1/128` for the two-rarefaction
data point (`u_L = 0`, `u_R = -25/4`). -/
lemma equations_75_root :
    equations (7/5) (7/5) 1 0 (896/5) 128 (-(25/4)) (pStar (1/128)) = 0 := by
  unfold equations
  rw [fSide_75_left, fSide_75_right]
  norm_num

/-! ## C1 -/

/-- C1: whenever the pressure `p` handed back by `fsolve` is a genuine
root of the code's residual `equations` (and is above the clamp floor, so
the clamp is the identity), the star pressure `P* = max(p, 1e-10)`
produced by the solve step satisfies the velocity-matching condition
exactly as the specification words it, and the root search starts from
the average of `P_L` and `P_R` clamped to the floor `1e-10`. -/
theorem riemann_finds_matching_root (γ ρL PL uL ρR PR uR p : ℝ)
    (hroot : equations γ ρL PL uL ρR PR uR p = 0) (hp : (1e-10 : ℝ) ≤ p) :
    specVelocityMatchResidual γ ρL PL uL ρR PR uR (pStar p) = 0 ∧
    pGuess PL PR = max ((PL + PR) / 2) 1e-10 := by
  constructor
  · rw [show pStar p = p from max_eq_left hp]
    show equations γ ρL PL uL ρR PR uR p = 0
    exact hroot
  · unfold pGuess
    congr 1
    ring

/-- Witness for C1 at the exact two-rarefaction root `p = 1/128`. -/
theorem riemann_finds_matching_root_witness :
    equations (7/5) (7/5) 1 0 (896/5) 128 (-(25/4)) (1/128) = 0 ∧
    (1e-10 : ℝ) ≤ 1/128 ∧
    (specVelocityMatchResidual (7/5) (7/5) 1 0 (896/5) 128 (-(25/4))
        (pStar (1/128)) = 0 ∧
      pGuess 1 128 = max ((1 + 128) / 2) 1e-10) := by
  have hroot : equations (7/5) (7/5) 1 0 (896/5) 128 (-(25/4)) (1/128) = 0 := by
    have h := equations_75_root
    rwa [pStar_at_128] at h
  exact ⟨hroot, by norm_num,
    riemann_finds_matching_root (7/5) (7/5) 1 0 (896/5) 128 (-(25/4)) (1/128)
      hroot (by norm_num)⟩

/-! ## C6 -/

/-- The clamp is the identity at `p = 1`. -/
lemma pStar_one : pStar 1 = 1 := max_eq_left (by norm_num)

/-- Pressure function at equal pressure: identically zero. -/
lemma fSide_75_unit : fSide (7/5) 1 (7/5) (pStar 1) = 0 := by
  rw [pStar_one]
  unfold fSide
  rw [if_neg (by norm_num), soundSpeed_75_left]
  rw [show ((1:ℝ)/1) = 1 by norm_num, Real.one_rpow]
  norm_num

/-- C6 (code bug): the code never surfaces root-finder non-convergence.
With left state `(rho, P, u) = (7/5, 1, 5)`, right state `(7/5, 1, 0)`
and `gamma = 7/5`, a solver output `p = 1` leaves a residual of `5` at
the clamped star pressure — i.e. the returned pressure is *not* a root —
yet `riemann_problem` still assembles and returns an ordinary solution
value (here the full left state at `x = 0`, `t = 1`) with no error path:
the `fsolve` convergence status (and likewise `sol.success` of
`solve_ivp` in the Sedov solver) is never inspected. -/
theorem riemann_no_convergence_check :
    equations (7/5) (7/5) 1 5 (7/5) 1 0 (pStar 1) = 5 ∧ (5:ℝ) ≠ 0 ∧
    riemannPoint (7/5) (7/5) 1 5 (7/5) 1 0 0 1 1 0 = (7/5, 5, 1) := by
  have hf1 : fSide (7/5) 1 (7/5) 1 = 0 := by
    have h := fSide_75_unit
    rwa [pStar_one] at h
  refine ⟨?_, by norm_num, ?_⟩
  · unfold equations
    rw [fSide_75_unit]
    norm_num
  · simp only [riemannPoint, evalW, solveWave, pStar_one, soundSpeed_75_left,
      hf1]
    norm_num

/-! ## C5 -/

/-- C5 (amended): the floor-fallback applies only to momentum and angular
momentum.  Mass and energy errors are always the quotient
`(q_i - q_0)/q_0`, with no floor check on the reference.  Momentum: the
quotient of magnitudes when the initial magnitude exceeds `1e-14`, and
otherwise the (nonnegative, hence equal to its absolute value) magnitude
series.  2D angular momentum: when `|L_0| > 1e-14` the error is
`(L_i - L_0)/|L_0|` — division by the *absolute* reference, hence the
negated quotient when `L_0 < 0` — and otherwise the *signed* series
`L_i`, not its absolute value.  3D angular momentum: the quotient of
magnitudes when the reference magnitude exceeds `1e-14`, and otherwise
the (nonnegative, hence equal to its absolute value) magnitude series. -/
theorem conservation_error_conventions (s0 : Snapshot) (rest : List Snapshot) :
    (analyzeSnapshotsAux s0 rest).mass_error =
      (s0 :: rest).map (fun s => (totalMass s - totalMass s0) / totalMass s0) ∧
    (analyzeSnapshotsAux s0 rest).energy_error =
      (s0 :: rest).map (fun s =>
        (totalKineticEnergy s + totalThermalEnergy s -
          (totalKineticEnergy s0 + totalThermalEnergy s0)) /
        (totalKineticEnergy s0 + totalThermalEnergy s0)) ∧
    (1e-14 < norm3 (totalMomentum s0) →
      (analyzeSnapshotsAux s0 rest).momentum_error =
        (s0 :: rest).map (fun s =>
          (norm3 (totalMomentum s) - norm3 (totalMomentum s0)) /
            norm3 (totalMomentum s0))) ∧
    (norm3 (totalMomentum s0) ≤ 1e-14 →
      (analyzeSnapshotsAux s0 rest).momentum_error =
        (s0 :: rest).map (fun s => |norm3 (totalMomentum s)|)) ∧
    (s0.dim = 2 → 1e-14 < |angularMomentum2d s0| →
      (analyzeSnapshotsAux s0 rest).angular_momentum_error =
        some ((s0 :: rest).map (fun s =>
          (angularMomentum2d s - angularMomentum2d s0) /
            |angularMomentum2d s0|))) ∧
    (s0.dim = 2 → |angularMomentum2d s0| ≤ 1e-14 →
      (analyzeSnapshotsAux s0 rest).angular_momentum_error =
        some ((s0 :: rest).map angularMomentum2d)) ∧
    (s0.dim = 3 → 1e-14 < norm3 (angularMomentum3d s0) →
      (analyzeSnapshotsAux s0 rest).angular_momentum_error =
        some ((s0 :: rest).map (fun s =>
          (norm3 (angularMomentum3d s) - norm3 (angularMomentum3d s0)) /
            norm3 (angularMomentum3d s0)))) ∧
    (s0.dim = 3 → norm3 (angularMomentum3d s0) ≤ 1e-14 →
      (analyzeSnapshotsAux s0 rest).angular_momentum_error =
        some ((s0 :: rest).map (fun s => |norm3 (angularMomentum3d s)|))) := by
  refine ⟨rfl, rfl, ?_, ?_, ?_, ?_, ?_, ?_⟩
  · intro h
    simp only [analyzeSnapshotsAux]
    rw [if_pos h]
  · intro h
    simp only [analyzeSnapshotsAux]
    rw [if_neg (not_lt.mpr h)]
    refine List.map_congr_left ?_
    intro s _
    exact (abs_of_nonneg (Real.sqrt_nonneg _)).symm
  · intro hdim h
    simp only [analyzeSnapshotsAux, hdim]
    rw [if_pos trivial, if_pos h]
    norm_num
  · intro hdim h
    simp only [analyzeSnapshotsAux, hdim]
    rw [if_pos trivial, if_neg (not_lt.mpr h)]
    norm_num
  · intro hdim h
    simp only [analyzeSnapshotsAux, hdim]
    rw [if_pos h]
    norm_num
  · intro hdim h
    have habs : (s0 :: rest).map (fun s => |norm3 (angularMomentum3d s)|) =
        (s0 :: rest).map (fun s => norm3 (angularMomentum3d s)) :=
      List.map_congr_left fun s _ => abs_of_nonneg (Real.sqrt_nonneg _)
    rw [habs]
    simp only [analyzeSnapshotsAux, hdim]
    rw [if_neg (not_lt.mpr h)]
    norm_num

/-- All-zero single-particle snapshot with tiny specific internal energy,
driving the reference total energy below the claimed floor. -/
def floorSnap (tv ev : ℝ) : Snapshot :=
  ⟨tv, 1, [1], [(0, 0, 0)], [(0, 0, 0)], [ev]⟩

/-- Counterexample to C5 as stated: with reference total energy
`1e-20 <= 1e-14`, the analyzer still reports the quotient
`(2e-20 - 1e-20)/1e-20 = 1` at sample 1, not the absolute value `2e-20`
of the quantity: mass and energy errors are never switched to the
absolute-error convention. -/
theorem conservation_floor_counterexample :
    Option.map ConservationReport.energy_error
        (analyzeSnapshots [floorSnap 0 1e-20, floorSnap 1 2e-20]) =
      some [0, 1] ∧
    |totalKineticEnergy (floorSnap 0 1e-20) +
        totalThermalEnergy (floorSnap 0 1e-20)| ≤ 1e-14 ∧
    (1:ℝ) ≠ |totalKineticEnergy (floorSnap 1 2e-20) +
        totalThermalEnergy (floorSnap 1 2e-20)| := by
  have e0 : totalKineticEnergy (floorSnap 0 1e-20) +
      totalThermalEnergy (floorSnap 0 1e-20) = 1e-20 := by
    norm_num [floorSnap, totalKineticEnergy, totalThermalEnergy]
  have e1 : totalKineticEnergy (floorSnap 1 2e-20) +
      totalThermalEnergy (floorSnap 1 2e-20) = 2e-20 := by
    norm_num [floorSnap, totalKineticEnergy, totalThermalEnergy]
  refine ⟨?_, ?_, ?_⟩
  · simp only [analyzeSnapshots, analyzeSnapshotsAux, Option.map_some']
    norm_num [floorSnap, totalKineticEnergy, totalThermalEnergy]
  · rw [e0, abs_of_nonneg (by norm_num)]
    norm_num
  · rw [e1, abs_of_nonneg (by norm_num)]
    norm_num

/-- Witness for the amended C5: a single resting particle has momentum
magnitude `0 <= 1e-14`, and the reported momentum error series is the
magnitude (= absolute value) series, not a quotient. -/
theorem conservation_error_conventions_witness :
    norm3 (totalMomentum (floorSnap 0 1e-20)) ≤ 1e-14 ∧
    (analyzeSnapshotsAux (floorSnap 0 1e-20) []).momentum_error =
      [|norm3 (totalMomentum (floorSnap 0 1e-20))|] := by
  have hm : norm3 (totalMomentum (floorSnap 0 1e-20)) ≤ 1e-14 := by
    norm_num [norm3, totalMomentum, floorSnap, Real.sqrt_zero]
  exact ⟨hm, by
    simpa using (conservation_error_conventions (floorSnap 0 1e-20) []).2.2.2.1 hm⟩

/-! ## C10 -/

/-- C10: the conservation analysis fails immediately (with an indexing
error, modelled as `none`) on the empty snapshot list, and on every
nonempty list sharing one dimension it produces a complete report whose
reference is the first snapshot, so every error series starts at `0`
whenever its reference value is above the `1e-14` floor. -/
theorem conservation_nonempty_report :
    analyzeSnapshots [] = none ∧
    ∀ (s0 : Snapshot) (rest : List Snapshot),
      (∀ s ∈ rest, s.dim = s0.dim) →
      analyzeSnapshots (s0 :: rest) = some (analyzeSnapshotsAux s0 rest) ∧
      (1e-14 < |totalMass s0| →
        (analyzeSnapshotsAux s0 rest).mass_error.get? 0 = some 0) ∧
      (1e-14 < norm3 (totalMomentum s0) →
        (analyzeSnapshotsAux s0 rest).momentum_error.get? 0 = some 0) ∧
      (1e-14 < |totalKineticEnergy s0 + totalThermalEnergy s0| →
        (analyzeSnapshotsAux s0 rest).energy_error.get? 0 = some 0) ∧
      (s0.dim = 2 → 1e-14 < |angularMomentum2d s0| →
        Option.map (fun l => l.get? 0)
          (analyzeSnapshotsAux s0 rest).angular_momentum_error =
          some (some 0)) ∧
      (s0.dim = 3 → 1e-14 < norm3 (angularMomentum3d s0) →
        Option.map (fun l => l.get? 0)
          (analyzeSnapshotsAux s0 rest).angular_momentum_error =
          some (some 0)) := by
  refine ⟨rfl, ?_⟩
  intro s0 rest _
  refine ⟨rfl, ?_, ?_, ?_, ?_, ?_⟩
  · intro _
    simp [analyzeSnapshotsAux]
  · intro h
    simp only [analyzeSnapshotsAux]
    rw [if_pos h]
    simp
  · intro _
    simp [analyzeSnapshotsAux]
  · intro hdim h
    simp only [analyzeSnapshotsAux, hdim]
    rw [if_pos trivial, if_pos h]
    simp
  · intro hdim h
    simp only [analyzeSnapshotsAux, hdim]
    rw [if_pos h]
    simp

/-- Witness for C10: a two-particle 2D snapshot with nonzero totals. -/
theorem conservation_nonempty_report_witness :
    (∀ s ∈ ([] : List Snapshot),
      s.dim = (⟨0, 2, [1, 1], [(1, 0, 0), (-1, 0, 0)],
        [(1, 1, 0), (1, -1, 0)], [1, 1]⟩ : Snapshot).dim) ∧
    (1e-14 : ℝ) < |totalMass (⟨0, 2, [1, 1], [(1, 0, 0), (-1, 0, 0)],
        [(1, 1, 0), (1, -1, 0)], [1, 1]⟩ : Snapshot)| ∧
    (analyzeSnapshotsAux (⟨0, 2, [1, 1], [(1, 0, 0), (-1, 0, 0)],
        [(1, 1, 0), (1, -1, 0)], [1, 1]⟩ : Snapshot) []).mass_error.get? 0 =
      some 0 := by
  have hmass : (1e-14 : ℝ) < |totalMass (⟨0, 2, [1, 1], [(1, 0, 0), (-1, 0, 0)],
      [(1, 1, 0), (1, -1, 0)], [1, 1]⟩ : Snapshot)| := by
    norm_num [totalMass]
  exact ⟨by simp, hmass,
    ((conservation_nonempty_report.2 _ [] (by simp)).2.1 hmass)⟩

/-! ## C4 -/

/-- The right rarefaction-fan of a mirrored wave structure, evaluated at
the negated offset, is the mirror of the left fan. -/
lemma fanR_mirror (w w' : Wave) (f1 : w'.gamma = w.gamma) (f2 : w'.cR = w.cL)
    (f3 : w'.uR = -w.uL) (f4 : w'.rhoR = w.rhoL) (f5 : w'.PR = w.PL)
    (f6 : w'.t = w.t) (ξ : ℝ) : fanR w' (-ξ) = mirrorState (fanL w ξ) := by
  simp only [fanR, fanL, mirrorState]
  rw [f1, f2, f3, f4, f5, f6]
  have hbase : w.cL + (w.gamma - 1) / 2 *
      (2 / (w.gamma + 1) * (-w.cL + -ξ / w.t + -w.uL) - -w.uL) =
      w.cL - (w.gamma - 1) / 2 *
      (2 / (w.gamma + 1) * (w.cL + ξ / w.t + w.uL) - w.uL) := by ring
  rw [hbase]
  simp only [Prod.mk.injEq]
  refine ⟨trivial, by ring, trivial⟩

/-- The left rarefaction-fan of a mirrored wave structure, evaluated at
the negated offset, is the mirror of the right fan. -/
lemma fanL_mirror (w w' : Wave) (f1 : w'.gamma = w.gamma) (f2 : w'.cL = w.cR)
    (f3 : w'.uL = -w.uR) (f4 : w'.rhoL = w.rhoR) (f5 : w'.PL = w.PR)
    (f6 : w'.t = w.t) (ξ : ℝ) : fanL w' (-ξ) = mirrorState (fanR w ξ) := by
  simp only [fanL, fanR, mirrorState]
  rw [f1, f2, f3, f4, f5, f6]
  have hbase : w.cR - (w.gamma - 1) / 2 *
      (2 / (w.gamma + 1) * (w.cR + -ξ / w.t + -w.uR) - -w.uR) =
      w.cR + (w.gamma - 1) / 2 *
      (2 / (w.gamma + 1) * (-w.cR + ξ / w.t + w.uR) - w.uR) := by ring
  rw [hbase]
  simp only [Prod.mk.injEq]
  refine ⟨trivial, by ring, trivial⟩

/-- Region evaluation commutes with mirroring for any pair of wave
structures whose fields satisfy the mirror relations (each side may be a
shock or a rarefaction), provided every rarefaction fan is well-ordered
(head coordinate before tail coordinate) and the query offset avoids the
active wave boundaries of the configuration. -/
lemma evalW_mirror (w w' : Wave)
    (e1 : w'.PL = w.PR) (e2 : w'.PR = w.PL) (e3 : w'.Ps = w.Ps)
    (e4 : w'.rhoL = w.rhoR) (e5 : w'.uL = -w.uR)
    (e6 : w'.rhoR = w.rhoL) (e7 : w'.uR = -w.uL)
    (e8 : w'.rhosL = w.rhosR) (e9 : w'.rhosR = w.rhosL) (e10 : w'.us = -w.us)
    (e11 : w'.xContact = -w.xContact)
    (e12s : w.PR < w.Ps → w'.xHeadL = -w.xShockR)
    (e12r : w.Ps ≤ w.PR → w'.xHeadL = -w.xHeadR ∧ w'.xTailL = -w.xTailR)
    (e13s : w.PL < w.Ps → w'.xShockR = -w.xHeadL)
    (e13r : w.Ps ≤ w.PL → w'.xTailR = -w.xTailL ∧ w'.xHeadR = -w.xHeadL)
    (efanL : ∀ y : ℝ, fanR w' (-y) = mirrorState (fanL w y))
    (efanR : ∀ y : ℝ, fanL w' (-y) = mirrorState (fanR w y))
    (hwoL : w.Ps ≤ w.PL → w.xHeadL ≤ w.xTailL)
    (hwoR : w.Ps ≤ w.PR → w.xTailR ≤ w.xHeadR)
    (ξ : ℝ) (h1 : ξ ≠ w.xHeadL) (h2 : ξ ≠ w.xTailL) (h3 : ξ ≠ w.xContact)
    (h4 : w.PR < w.Ps → ξ ≠ w.xShockR)
    (h5 : w.Ps ≤ w.PR → ξ ≠ w.xTailR)
    (h6 : w.Ps ≤ w.PR → ξ ≠ w.xHeadR) :
    evalW w' (-ξ) = mirrorState (evalW w ξ) := by
  rcases lt_trichotomy ξ w.xContact with hc | hc | hc
  · have hgO : ¬ ((w.Ps ≤ w.PL ∧ w.xContact ≤ ξ) ∨
        (w.PL < w.Ps ∧ w.xContact ≤ ξ)) := by
      rintro (⟨-, hx⟩ | ⟨-, hx⟩) <;> linarith
    have hgM : (w'.Ps ≤ w'.PL ∧ w'.xContact ≤ -ξ) ∨
        (w'.PL < w'.Ps ∧ w'.xContact ≤ -ξ) := by
      have hx : w'.xContact ≤ -ξ := by rw [e11]; linarith
      rcases le_or_lt w'.Ps w'.PL with h | h
      · exact Or.inl ⟨h, hx⟩
      · exact Or.inr ⟨h, hx⟩
    rcases lt_or_le w.PL w.Ps with hL | hL
    · have hbr : w'.PR < w'.Ps := by rw [e2, e3]; exact hL
      have hO : evalW w ξ =
          if ξ < w.xHeadL then (w.rhoL, w.uL, w.PL)
          else (w.rhosL, w.us, w.Ps) := by
        simp only [evalW]
        rw [if_neg hgO, if_pos hL, if_pos hc]
      have hM : evalW w' (-ξ) =
          if -ξ < w'.xShockR then (w'.rhosR, w'.us, w'.Ps)
          else (w'.rhoR, w'.uR, w'.PR) := by
        simp only [evalW]
        rw [if_pos hgM, if_pos hbr]
      have e13 := e13s hL
      rcases lt_trichotomy ξ w.xHeadL with hh | hh | hh
      · rw [hM, if_neg (by rw [e13]; exact not_lt.mpr (by linarith)), hO,
          if_pos hh, e6, e7, e2]
        rfl
      · exact absurd hh h1
      · rw [hM, if_pos (by rw [e13]; linarith), hO, if_neg (not_lt.mpr hh.le),
          e9, e10, e3]
        rfl
    · have hbr : ¬ w'.PR < w'.Ps := by rw [e2, e3]; exact not_lt.mpr hL
      have hO : evalW w ξ =
          if ξ < w.xHeadL then (w.rhoL, w.uL, w.PL)
          else if ξ < w.xTailL then fanL w ξ
          else (w.rhosL, w.us, w.Ps) := by
        simp only [evalW]
        rw [if_neg hgO, if_neg (not_lt.mpr hL), if_pos hc]
      have hM : evalW w' (-ξ) =
          if -ξ < w'.xTailR then (w'.rhosR, w'.us, w'.Ps)
          else if -ξ < w'.xHeadR then fanR w' (-ξ)
          else (w'.rhoR, w'.uR, w'.PR) := by
        simp only [evalW]
        rw [if_pos hgM, if_neg hbr]
      obtain ⟨eT, eH⟩ := e13r hL
      rcases lt_trichotomy ξ w.xTailL with htl | htl | htl
      · rcases lt_trichotomy ξ w.xHeadL with hh | hh | hh
        · rw [hM, if_neg (by rw [eT]; exact not_lt.mpr (by linarith)),
            if_neg (by rw [eH]; exact not_lt.mpr (by linarith)), hO,
            if_pos hh, e6, e7, e2]
          rfl
        · exact absurd hh h1
        · rw [hM, if_neg (by rw [eT]; exact not_lt.mpr (by linarith)),
            if_pos (by rw [eH]; linarith), hO, if_neg (not_lt.mpr hh.le),
            if_pos htl]
          exact efanL ξ
      · exact absurd htl h2
      · have hhl : ¬ ξ < w.xHeadL := not_lt.mpr (le_trans (hwoL hL) htl.le)
        rw [hM, if_pos (by rw [eT]; linarith), hO, if_neg hhl,
          if_neg (not_lt.mpr htl.le), e9, e10, e3]
        rfl
  · exact absurd hc h3
  · have hgO : (w.Ps ≤ w.PL ∧ w.xContact ≤ ξ) ∨
        (w.PL < w.Ps ∧ w.xContact ≤ ξ) := by
      rcases le_or_lt w.Ps w.PL with h | h
      · exact Or.inl ⟨h, hc.le⟩
      · exact Or.inr ⟨h, hc.le⟩
    have hgM : ¬ ((w'.Ps ≤ w'.PL ∧ w'.xContact ≤ -ξ) ∨
        (w'.PL < w'.Ps ∧ w'.xContact ≤ -ξ)) := by
      rintro (⟨-, hx⟩ | ⟨-, hx⟩) <;> (rw [e11] at hx; linarith)
    have hcc : -ξ < w'.xContact := by rw [e11]; linarith
    rcases lt_or_le w.PR w.Ps with hR | hR
    · have hbr : w'.PL < w'.Ps := by rw [e1, e3]; exact hR
      have hO : evalW w ξ =
          if ξ < w.xShockR then (w.rhosR, w.us, w.Ps)
          else (w.rhoR, w.uR, w.PR) := by
        simp only [evalW]
        rw [if_pos hgO, if_pos hR]
      have hM : evalW w' (-ξ) =
          if -ξ < w'.xHeadL then (w'.rhoL, w'.uL, w'.PL)
          else (w'.rhosL, w'.us, w'.Ps) := by
        simp only [evalW]
        rw [if_neg hgM, if_pos hbr, if_pos hcc]
      have e12 := e12s hR
      rcases lt_trichotomy ξ w.xShockR with hs | hs | hs
      · rw [hM, if_neg (by rw [e12]; exact not_lt.mpr (by linarith)), hO,
          if_pos hs, e8, e10, e3]
        rfl
      · exact absurd hs (h4 hR)
      · rw [hM, if_pos (by rw [e12]; linarith), hO, if_neg (not_lt.mpr hs.le),
          e4, e5, e1]
        rfl
    · have hbr : ¬ w'.PL < w'.Ps := by rw [e1, e3]; exact not_lt.mpr hR
      have hO : evalW w ξ =
          if ξ < w.xTailR then (w.rhosR, w.us, w.Ps)
          else if ξ < w.xHeadR then fanR w ξ
          else (w.rhoR, w.uR, w.PR) := by
        simp only [evalW]
        rw [if_pos hgO, if_neg (not_lt.mpr hR)]
      have hM : evalW w' (-ξ) =
          if -ξ < w'.xHeadL then (w'.rhoL, w'.uL, w'.PL)
          else if -ξ < w'.xTailL then fanL w' (-ξ)
          else (w'.rhosL, w'.us, w'.Ps) := by
        simp only [evalW]
        rw [if_neg hgM, if_neg hbr, if_pos hcc]
      obtain ⟨eH, eT⟩ := e12r hR
      rcases lt_trichotomy ξ w.xHeadR with hh | hh | hh
      · rcases lt_trichotomy ξ w.xTailR with htr | htr | htr
        · rw [hM, if_neg (by rw [eH]; exact not_lt.mpr (by linarith)),
            if_neg (by rw [eT]; exact not_lt.mpr (by linarith)), hO,
            if_pos htr, e8, e10, e3]
          rfl
        · exact absurd htr (h5 hR)
        · rw [hM, if_neg (by rw [eH]; exact not_lt.mpr (by linarith)),
            if_pos (by rw [eT]; linarith), hO, if_neg (not_lt.mpr htr.le),
            if_pos hh]
          exact efanR ξ
      · exact absurd hh (h6 hR)
      · have hntr : ¬ ξ < w.xTailR := not_lt.mpr (le_trans (hwoR hR) hh.le)
        rw [hM, if_pos (by rw [eH]; linarith), hO, if_neg hntr,
          if_neg (not_lt.mpr hh.le), e4, e5, e1]
        rfl

/-- C4 (amended): mirror symmetry of the Riemann evaluation away from
the wave boundaries, for well-ordered fans.  For valid states, `t > 0`
and a star pressure satisfying the velocity-matching residual, if each
side that is a rarefaction has a well-ordered fan (head coordinate not
beyond tail coordinate) and the query offset avoids the active
wave-boundary coordinates of the configuration (left head/tail, contact,
and the right shock position or fan tail/head), then solving with the
states swapped and velocities negated and evaluating at the negated
offset yields the mirrored state: identical density and pressure,
negated velocity.  Inverted (strong) rarefaction fans — tail strictly
outside head, as in the counterexample — break the symmetry on open
intervals, and the half-open region conventions break it at the boundary
coordinates themselves. -/
theorem riemann_mirror_symmetry (γ ρL PL uL ρR PR uR t p ξ : ℝ)
    (hγ : 1 < γ) (hρL : 0 < ρL) (hPL : 0 < PL) (hρR : 0 < ρR) (hPR : 0 < PR)
    (ht : 0 < t)
    (hroot : equations γ ρL PL uL ρR PR uR (pStar p) = 0)
    (hwoL : pStar p ≤ PL →
      (solveWave γ ρL PL uL ρR PR uR t p).xHeadL ≤
        (solveWave γ ρL PL uL ρR PR uR t p).xTailL)
    (hwoR : pStar p ≤ PR →
      (solveWave γ ρL PL uL ρR PR uR t p).xTailR ≤
        (solveWave γ ρL PL uL ρR PR uR t p).xHeadR)
    (h1 : ξ ≠ (solveWave γ ρL PL uL ρR PR uR t p).xHeadL)
    (h2 : ξ ≠ (solveWave γ ρL PL uL ρR PR uR t p).xTailL)
    (h3 : ξ ≠ (solveWave γ ρL PL uL ρR PR uR t p).xContact)
    (h4 : PR < pStar p → ξ ≠ (solveWave γ ρL PL uL ρR PR uR t p).xShockR)
    (h5 : pStar p ≤ PR → ξ ≠ (solveWave γ ρL PL uL ρR PR uR t p).xTailR)
    (h6 : pStar p ≤ PR → ξ ≠ (solveWave γ ρL PL uL ρR PR uR t p).xHeadR) :
    evalW (solveWave γ ρR PR (-uR) ρL PL (-uL) t p) (-ξ) =
      mirrorState (evalW (solveWave γ ρL PL uL ρR PR uR t p) ξ) := by
  have hus : -uR + fSide γ PR ρR (pStar p) =
      -(uL + fSide γ PL ρL (pStar p)) := by
    have h : uL - uR + fSide γ PL ρL (pStar p) + fSide γ PR ρR (pStar p) = 0 :=
      hroot
    linarith
  refine evalW_mirror (solveWave γ ρL PL uL ρR PR uR t p)
    (solveWave γ ρR PR (-uR) ρL PL (-uL) t p) rfl rfl rfl rfl rfl rfl rfl rfl
    rfl hus ?_ ?_ ?_ ?_ ?_
    (fun y => fanR_mirror (solveWave γ ρL PL uL ρR PR uR t p)
      (solveWave γ ρR PR (-uR) ρL PL (-uL) t p) rfl rfl rfl rfl rfl rfl y)
    (fun y => fanL_mirror (solveWave γ ρL PL uL ρR PR uR t p)
      (solveWave γ ρR PR (-uR) ρL PL (-uL) t p) rfl rfl rfl rfl rfl rfl y)
    hwoL hwoR ξ h1 h2 h3 h4 h5 h6
  · show (-uR + fSide γ PR ρR (pStar p)) * t =
      -((uL + fSide γ PL ρL (pStar p)) * t)
    rw [hus]; ring
  · intro h
    have h' : PR < pStar p := h
    show (if PR < pStar p then
        -uR - soundSpeed γ PR ρR *
          Real.sqrt ((γ + 1) / (2 * γ) * pStar p / PR + (γ - 1) / (2 * γ))
      else -uR - soundSpeed γ PR ρR) * t =
      -((uR + soundSpeed γ PR ρR *
          Real.sqrt ((γ + 1) / (2 * γ) * pStar p / PR + (γ - 1) / (2 * γ))) * t)
    rw [if_pos h']; ring
  · intro h
    have h' : pStar p ≤ PR := h
    constructor
    · show (if PR < pStar p then
          -uR - soundSpeed γ PR ρR *
            Real.sqrt ((γ + 1) / (2 * γ) * pStar p / PR + (γ - 1) / (2 * γ))
        else -uR - soundSpeed γ PR ρR) * t =
        -((uR + soundSpeed γ PR ρR) * t)
      rw [if_neg (not_lt.mpr h')]; ring
    · show (if PR < pStar p then
          -uR - soundSpeed γ PR ρR *
            Real.sqrt ((γ + 1) / (2 * γ) * pStar p / PR + (γ - 1) / (2 * γ))
        else
          -uR + fSide γ PR ρR (pStar p) -
            soundSpeed γ PR ρR * (pStar p / PR) ^ ((γ - 1) / (2 * γ))) * t =
        -((uL + fSide γ PL ρL (pStar p) +
            soundSpeed γ PR ρR * (pStar p / PR) ^ ((γ - 1) / (2 * γ))) * t)
      rw [if_neg (not_lt.mpr h'), hus]; ring
  · intro h
    have h' : PL < pStar p := h
    show (-uL + soundSpeed γ PL ρL *
        Real.sqrt ((γ + 1) / (2 * γ) * pStar p / PL + (γ - 1) / (2 * γ))) * t =
      -((if PL < pStar p then
          uL - soundSpeed γ PL ρL *
            Real.sqrt ((γ + 1) / (2 * γ) * pStar p / PL + (γ - 1) / (2 * γ))
        else uL - soundSpeed γ PL ρL) * t)
    rw [if_pos h']; ring
  · intro h
    have h' : pStar p ≤ PL := h
    constructor
    · show (-uR + fSide γ PR ρR (pStar p) +
          soundSpeed γ PL ρL * (pStar p / PL) ^ ((γ - 1) / (2 * γ))) * t =
        -((if PL < pStar p then
            uL - soundSpeed γ PL ρL *
              Real.sqrt ((γ + 1) / (2 * γ) * pStar p / PL + (γ - 1) / (2 * γ))
          else
            uL + fSide γ PL ρL (pStar p) -
              soundSpeed γ PL ρL * (pStar p / PL) ^ ((γ - 1) / (2 * γ))) * t)
      rw [if_neg (not_lt.mpr h'), hus]; ring
    · show (-uL + soundSpeed γ PL ρL) * t =
        -((if PL < pStar p then
            uL - soundSpeed γ PL ρL *
              Real.sqrt ((γ + 1) / (2 * γ) * pStar p / PL + (γ - 1) / (2 * γ))
          else uL - soundSpeed γ PL ρL) * t)
      rw [if_neg (not_lt.mpr h')]; ring

/-- `(1/32)^(2/5) = 1/4`. -/
lemma rpow_32_25 : ((1:ℝ)/32) ^ ((2:ℝ)/5) = 1/4 := by
  have h := rpow_natFrac (1/2 : ℝ) (by norm_num) 5 2 (by norm_num)
  norm_num at h
  simpa using h

/-- Left-side sound speed of the mixed rarefaction-shock data point
(`gamma = 5`, `rho_L = 160`, `P_L = 32`). -/
lemma soundSpeed_5_left : soundSpeed 5 32 160 = 1 := by
  unfold soundSpeed
  rw [show ((5:ℝ) * 32 / 160) = 1 by norm_num, Real.sqrt_one]

/-- Left pressure function of the mixed data point: a rarefaction with
value `-3/8` at `P* = 1`. -/
lemma fSide_5_left : fSide 5 32 160 (pStar 1) = -(3/8) := by
  rw [pStar_one]
  unfold fSide
  rw [if_neg (by norm_num), soundSpeed_5_left]
  rw [show (((5:ℝ) - 1) / (2 * 5)) = 2/5 by norm_num]
  rw [rpow_32_25]
  norm_num

/-- Right pressure function of the mixed data point: a shock with value
`1/4` at `P* = 1` (`rho_R = 1`, `P_R = 1/2`). -/
lemma fSide_5_right : fSide 5 (1/2) 1 (pStar 1) = 1/4 := by
  rw [pStar_one]
  unfold fSide
  rw [if_pos (by norm_num)]
  rw [show (2 / ((5 + 1) * 1) / ((1:ℝ) + (5 - 1) / (5 + 1) * (1/2))) = 1/4 by
    norm_num]
  rw [show ((1:ℝ)/4) = (1/2)^2 by norm_num, Real.sqrt_sq (by norm_num)]
  norm_num

/-- The residual vanishes exactly at `p = 1` for the mixed data point
(`u_L = 1/8`, `u_R = 0`). -/
lemma equations_5_root : equations 5 160 32 (1/8) 1 (1/2) 0 (pStar 1) = 0 := by
  unfold equations
  rw [fSide_5_left, fSide_5_right]
  norm_num

/-- Left fan head of the mixed data point. -/
lemma xHeadL_5 : (solveWave 5 160 32 (1/8) 1 (1/2) 0 1 1).xHeadL = -(7/8) := by
  simp only [solveWave]
  rw [pStar_one]
  rw [if_neg (by norm_num : ¬ ((32:ℝ) < 1)), soundSpeed_5_left]
  norm_num

/-- Left fan tail of the mixed data point: the fan is well-ordered
(`-7/8 <= -1/2`). -/
lemma xTailL_5 : (solveWave 5 160 32 (1/8) 1 (1/2) 0 1 1).xTailL = -(1/2) := by
  simp only [solveWave]
  rw [fSide_5_left, pStar_one]
  rw [if_neg (by norm_num : ¬ ((32:ℝ) < 1)), soundSpeed_5_left]
  rw [show (((5:ℝ) - 1) / (2 * 5)) = 2/5 by norm_num]
  rw [rpow_32_25]
  norm_num

/-- Contact coordinate of the mixed data point. -/
lemma xContact_5 : (solveWave 5 160 32 (1/8) 1 (1/2) 0 1 1).xContact = -(1/4) := by
  simp only [solveWave]
  rw [fSide_5_left]
  norm_num

/-- Right shock coordinate of the mixed data point. -/
lemma xShockR_5 : (solveWave 5 160 32 (1/8) 1 (1/2) 0 1 1).xShockR = 2 := by
  simp only [solveWave]
  rw [pStar_one]
  rw [show (((5:ℝ) + 1) / (2 * 5) * 1 / (1/2) + (5 - 1) / (2 * 5)) = 8/5 by
    norm_num]
  unfold soundSpeed
  rw [show ((5:ℝ) * (1/2) / 1) = 5/2 by norm_num]
  rw [← Real.sqrt_mul (by norm_num : (0:ℝ) ≤ 5/2)]
  rw [show ((5:ℝ)/2 * (8/5)) = 4 by norm_num]
  rw [show ((4:ℝ)) = 2^2 by norm_num, Real.sqrt_sq (by norm_num)]
  norm_num

/-- Witness for the amended C4 at a mixed configuration with a
*well-ordered* left rarefaction fan and a right shock (`gamma = 5`, left
`(160, 32, 1/8)`, right `(1, 1/2, 0)`, exact root `P* = 1`), queried at
offset `-3/4`, which lies strictly inside the fan `(-7/8, -1/2)`. -/
theorem riemann_mirror_symmetry_witness :
    ((1:ℝ) < 5 ∧ (0:ℝ) < 160 ∧ (0:ℝ) < 32 ∧ (0:ℝ) < 1 ∧ (0:ℝ) < 1/2 ∧
      (0:ℝ) < 1 ∧
      equations 5 160 32 (1/8) 1 (1/2) 0 (pStar 1) = 0 ∧
      (pStar 1 ≤ (32:ℝ) →
        (solveWave 5 160 32 (1/8) 1 (1/2) 0 1 1).xHeadL ≤
          (solveWave 5 160 32 (1/8) 1 (1/2) 0 1 1).xTailL) ∧
      (pStar 1 ≤ (1:ℝ)/2 →
        (solveWave 5 160 32 (1/8) 1 (1/2) 0 1 1).xTailR ≤
          (solveWave 5 160 32 (1/8) 1 (1/2) 0 1 1).xHeadR) ∧
      (-(3/4) : ℝ) ≠ (solveWave 5 160 32 (1/8) 1 (1/2) 0 1 1).xHeadL ∧
      (-(3/4) : ℝ) ≠ (solveWave 5 160 32 (1/8) 1 (1/2) 0 1 1).xTailL ∧
      (-(3/4) : ℝ) ≠ (solveWave 5 160 32 (1/8) 1 (1/2) 0 1 1).xContact ∧
      ((1:ℝ)/2 < pStar 1 →
        (-(3/4) : ℝ) ≠ (solveWave 5 160 32 (1/8) 1 (1/2) 0 1 1).xShockR) ∧
      (pStar 1 ≤ (1:ℝ)/2 →
        (-(3/4) : ℝ) ≠ (solveWave 5 160 32 (1/8) 1 (1/2) 0 1 1).xTailR) ∧
      (pStar 1 ≤ (1:ℝ)/2 →
        (-(3/4) : ℝ) ≠ (solveWave 5 160 32 (1/8) 1 (1/2) 0 1 1).xHeadR)) ∧
    evalW (solveWave 5 1 (1/2) (-(0:ℝ)) 160 32 (-(1/8)) 1 1) (-(-(3/4))) =
      mirrorState (evalW (solveWave 5 160 32 (1/8) 1 (1/2) 0 1 1) (-(3/4))) := by
  have hvac : ¬ (pStar 1 ≤ (1:ℝ)/2) := by rw [pStar_one]; norm_num
  have hwoL5 : pStar 1 ≤ (32:ℝ) →
      (solveWave 5 160 32 (1/8) 1 (1/2) 0 1 1).xHeadL ≤
        (solveWave 5 160 32 (1/8) 1 (1/2) 0 1 1).xTailL := fun _ => by
    rw [xHeadL_5, xTailL_5]; norm_num
  have hwoR5 : pStar 1 ≤ (1:ℝ)/2 →
      (solveWave 5 160 32 (1/8) 1 (1/2) 0 1 1).xTailR ≤
        (solveWave 5 160 32 (1/8) 1 (1/2) 0 1 1).xHeadR := fun h =>
    absurd h hvac
  have hb1 : (-(3/4) : ℝ) ≠ (solveWave 5 160 32 (1/8) 1 (1/2) 0 1 1).xHeadL := by
    rw [xHeadL_5]; norm_num
  have hb2 : (-(3/4) : ℝ) ≠ (solveWave 5 160 32 (1/8) 1 (1/2) 0 1 1).xTailL := by
    rw [xTailL_5]; norm_num
  have hb3 : (-(3/4) : ℝ) ≠ (solveWave 5 160 32 (1/8) 1 (1/2) 0 1 1).xContact := by
    rw [xContact_5]; norm_num
  have hb4 : (1:ℝ)/2 < pStar 1 →
      (-(3/4) : ℝ) ≠ (solveWave 5 160 32 (1/8) 1 (1/2) 0 1 1).xShockR := fun _ => by
    rw [xShockR_5]; norm_num
  have hb5 : pStar 1 ≤ (1:ℝ)/2 →
      (-(3/4) : ℝ) ≠ (solveWave 5 160 32 (1/8) 1 (1/2) 0 1 1).xTailR := fun h =>
    absurd h hvac
  have hb6 : pStar 1 ≤ (1:ℝ)/2 →
      (-(3/4) : ℝ) ≠ (solveWave 5 160 32 (1/8) 1 (1/2) 0 1 1).xHeadR := fun h =>
    absurd h hvac
  exact ⟨⟨by norm_num, by norm_num, by norm_num, by norm_num, by norm_num,
      by norm_num, equations_5_root, hwoL5, hwoR5, hb1, hb2, hb3, hb4, hb5,
      hb6⟩,
    riemann_mirror_symmetry 5 160 32 (1/8) 1 (1/2) 0 1 1 (-(3/4))
      (by norm_num) (by norm_num) (by norm_num) (by norm_num) (by norm_num)
      (by norm_num) equations_5_root hwoL5 hwoR5 hb1 hb2 hb3 hb4 hb5 hb6⟩

/-- Star density behind the mirrored right rarefaction of the
two-rarefaction data point. -/
lemma rhoStarSide_75 : rhoStarSide (7/5) 1 (7/5) (pStar (1/128)) = 7/160 := by
  rw [pStar_at_128]
  unfold rhoStarSide
  rw [if_neg (by norm_num)]
  rw [show ((1:ℝ)/128 / 1) = 1/128 by norm_num]
  rw [show ((1:ℝ)/(7/5)) = 5/7 by norm_num]
  rw [rpow_128_57]
  norm_num

/-- Counterexample to C4 as stated: the exact two-rarefaction problem
`gamma = 7/5`, left `(7/5, 1, 0)`, right `(896/5, 128, -25/4)` with star
pressure `P* = 1/128` (a genuine root of the residual), at `t = 1`.  At
query offset `-23/8` the original evaluation returns the left state
`(7/5, 0, 1)`, but the swapped-and-negated problem evaluated at `23/8`
returns the star state `(7/160, 5/2, 1/128)`, which is not the mirror
`(7/5, -0, 1)`: this problem's strong rarefaction fans are inverted
(tail coordinate strictly outside head coordinate), and inverted fans
break the mirror symmetry on open intervals. -/
theorem riemann_mirror_counterexample :
    equations (7/5) (7/5) 1 0 (896/5) 128 (-(25/4)) (pStar (1/128)) = 0 ∧
    evalW (solveWave (7/5) (7/5) 1 0 (896/5) 128 (-(25/4)) 1 (1/128))
        (-(23/8)) = (7/5, 0, 1) ∧
    evalW (solveWave (7/5) (896/5) 128 (25/4) (7/5) 1 0 1 (1/128)) (23/8) =
      (7/160, 5/2, 1/128) ∧
    ((7/160 : ℝ), (5/2 : ℝ), (1/128 : ℝ)) ≠ ((7/5 : ℝ), -(0:ℝ), (1 : ℝ)) := by
  refine ⟨equations_75_root, ?_, ?_, by
    intro h
    have := congrArg (fun s : ℝ × ℝ × ℝ => s.1) h
    norm_num at this⟩
  · simp only [evalW, solveWave]
    rw [fSide_75_left, pStar_at_128]
    rw [if_neg (by
      rintro (⟨-, hx⟩ | ⟨h, -⟩)
      · norm_num at hx
      · norm_num at h)]
    rw [if_neg (by norm_num : ¬ ((1:ℝ) < 1/128))]
    rw [if_pos (by
      rw [if_neg (by norm_num : ¬ ((1:ℝ) < 1/128)), soundSpeed_75_left]
      norm_num : (-(23/8) : ℝ) < (if (1:ℝ) < 1/128 then
        0 - soundSpeed (7/5) 1 (7/5) *
          Real.sqrt ((7/5 + 1) / (2 * (7/5)) * (1/128) / 1 +
            (7/5 - 1) / (2 * (7/5)))
      else 0 - soundSpeed (7/5) 1 (7/5)) * 1)]
  · simp only [evalW, solveWave]
    rw [fSide_75_right, pStar_at_128]
    rw [if_pos (Or.inl ⟨by norm_num, by norm_num⟩)]
    rw [if_neg (by norm_num : ¬ ((1:ℝ) < 1/128))]
    have htail : (23/8 : ℝ) <
        (25/4 + -(15/4) + soundSpeed (7/5) 1 (7/5) *
          ((1:ℝ)/128 / 1) ^ ((7/5 - 1) / (2 * (7/5)) : ℝ)) * 1 := by
      rw [soundSpeed_75_left]
      rw [show ((1:ℝ)/128 / 1) = 1/128 by norm_num]
      rw [show (((7:ℝ)/5 - 1) / (2 * (7/5))) = 1/7 by norm_num]
      rw [rpow_128_17]
      norm_num
    have hrho : rhoStarSide (7/5) 1 (7/5) ((1:ℝ)/128) = 7/160 := by
      have h := rhoStarSide_75
      rwa [pStar_at_128] at h
    rw [if_pos htail, hrho]
    norm_num

end HvccGsph
